import Mathlib

/-!
Verification of the teleprompter session coordinator and script store of the
teleprompter mobile application.

The embedding follows the TeleprompterScreen component (permission guards,
recording life cycle, auto-scroll ticking, focus transitions, speed and font
mutators) and the ScriptsScreen saveScript routine (word counting, list edit).
State variables of the screen become record fields, each setState call becomes
a record update, and the asynchronous recording flow becomes an explicit trace
of intermediate states tagged with the delay before each state is reached.
-/

namespace Teleprompter

/-! ## Recording status and screen recording state

`recordingStatus` ranges over the five string values the screen assigns:
idle, recording, saving, saved, error. -/

inductive RecStatus where
  | idle
  | recording
  | saving
  | saved
  | error
deriving DecidableEq, Repr

/-- The recording-related state variables of TeleprompterScreen:
`recordingStatus`, `isRecording`, `recordingDuration` (ms), and whether
the recording elapsed-time interval (`recordingTimerRef`) is running. -/
structure RecState where
  status : RecStatus
  isRecording : Bool
  duration : Nat
  timer : Bool
deriving DecidableEq, Repr

/-- The idle screen state before a recording attempt. -/
def recIdle : RecState := ⟨.idle, false, 0, false⟩

/-! ## startRecording preconditions

`startRecording` checks, in order: the camera ref is present; camera and
microphone permissions; media-library permission; the cameraReady flag.
Each failing check shows an alert with the message below and returns before
any state is mutated. -/

/-- The precondition checks of `startRecording`, returning the alert message
of the first failing check, or `none` when recording may proceed. -/
def startRecordingGuard (cameraRefPresent camPerm micPerm mediaPerm camReady : Bool) :
    Option String :=
  if !cameraRefPresent then some "Camera not ready"
  else if !camPerm || !micPerm then some "Camera and microphone permissions required"
  else if !mediaPerm then some "Media library permission required"
  else if !camReady then some "Camera is not ready. Please wait a moment and try again."
  else none

/-! ## The saving branch

After `recordAsync` resolves, the screen enters saving and then classifies
the result: a video object with a truthy (non-empty) uri is handed to
`MediaLibrary.saveToLibraryAsync`; the status becomes saved when that call
succeeds and error when it throws; a missing video or empty uri is reported
as "No video data was recorded" and the status becomes error. -/

/-- Status reached when leaving saving: saved exactly when a non-empty uri was
produced and the media library accepted it, error otherwise. -/
def savingOutcome (video : Option String) (saveOk : Bool) : RecStatus :=
  match video with
  | some uri => if uri.isEmpty then .error else if saveOk then .saved else .error
  | none => .error

/-- Result of the awaited `recordAsync` call: either it resolved (with the
optional video uri, and whether the subsequent save succeeded), or it threw. -/
inductive RecOutcome where
  | completed (video : Option String) (saveOk : Bool)
  | exception
deriving DecidableEq, Repr

/-- Cool-down before the status returns to idle after saved or error:
`setTimeout(() => setRecordingStatus('idle'), 2000)`. -/
def cooldownMs : Nat := 2000

/-- Sampling interval of the recording elapsed-time counter (ms). -/
def recordingTickMs : Nat := 100

/-- The state trace of a `startRecording` run whose preconditions passed,
starting from screen state `s`.  Each entry is the delay (ms) before the
state takes effect: 0 for synchronous setState calls, `elapsed` for the
awaited `recordAsync` (during which the elapsed counter has advanced to
`elapsed`), and `cooldownMs` for the final timeout back to idle. -/
def startRecordingTrace (s : RecState) (elapsed : Nat) (oc : RecOutcome) :
    List (Nat × RecState) :=
  let s1 := { s with isRecording := true }
  let s2 := { s1 with status := .recording }
  let s3 := { s2 with duration := 0, timer := true }
  let s4 := { s3 with duration := elapsed }
  match oc with
  | .completed video saveOk =>
    let s5 := { s4 with timer := false }
    let s6 := { s5 with status := .saving }
    let s7 := { s6 with status := savingOutcome video saveOk }
    let s8 := { s7 with isRecording := false }
    let s9 := { s8 with duration := 0 }
    let s10 := { s9 with status := .idle }
    [(0, s1), (0, s2), (0, s3), (elapsed, s4), (0, s5), (0, s6), (0, s7),
      (0, s8), (0, s9), (cooldownMs, s10)]
  | .exception =>
    let s5 := { s4 with timer := false }
    let s6 := { s5 with isRecording := false }
    let s7 := { s6 with duration := 0 }
    let s8 := { s7 with status := .error }
    let s9 := { s8 with status := .idle }
    [(0, s1), (0, s2), (0, s3), (elapsed, s4), (0, s5), (0, s6), (0, s7),
      (0, s8), (cooldownMs, s9)]

/-- A full `startRecording` attempt: when a precondition fails the alert
message is returned and the state is left untouched; otherwise the recording
trace unfolds. -/
def startRecordingRun (cameraRefPresent camPerm micPerm mediaPerm camReady : Bool)
    (s : RecState) (elapsed : Nat) (oc : RecOutcome) :
    Option String × List (Nat × RecState) :=
  match startRecordingGuard cameraRefPresent camPerm micPerm mediaPerm camReady with
  | some msg => (some msg, [(0, s)])
  | none => (none, startRecordingTrace s elapsed oc)

/-! ## Auto-scroll, speed and font state

The scrolling side of TeleprompterScreen: `scrollSpeed` and `fontSize` with
their clamped setters, `isScrolling`, the running scroll interval (holding the
closure-local scroll position and the captured speed), and the offset the
ScrollView was last scrolled to. -/

/-- Scroll-related screen state. `interval` is `some (pos, speed)` while the
50ms scroll interval is installed: `pos` is the closure-local scrollPosition
and `speed` the `scrollSpeed` captured when `startAutoScroll` ran.  `viewY`
is the offset last passed to `scrollViewRef.scrollTo`. -/
structure PrompterState where
  hasScript : Bool
  scrollSpeed : Int
  fontSize : Int
  isScrolling : Bool
  interval : Option (Int × Int)
  viewY : Int
deriving DecidableEq, Repr

/-- Period of the auto-scroll interval in ms. -/
def scrollTickMs : Nat := 50

/-- Initial screen state: scrollSpeed 2, fontSize 24, not scrolling, no
interval installed, view at offset 0. -/
def initialPrompter (hasScript : Bool) : PrompterState :=
  { hasScript := hasScript, scrollSpeed := 2, fontSize := 24,
    isScrolling := false, interval := none, viewY := 0 }

/-- The discrete events acting on the scroll state: the four control handlers,
a firing of the installed interval, and the four settings buttons. -/
inductive PrompterEvent where
  | startScroll
  | stopScroll
  | resetScroll
  | tick
  | incSpeed
  | decSpeed
  | incFont
  | decFont
deriving DecidableEq, Repr

/-- One event step, read off the handlers of TeleprompterScreen:
`startAutoScroll` (guarded by a selected script and not already scrolling,
resets the local position to 0 and captures the current speed),
`stopAutoScroll`, `resetScroll` (stop, then scroll to 0), an interval tick
(`scrollPosition += scrollSpeed; scrollTo(scrollPosition)`), and the
clamped speed and font setters. -/
def prompterStep (s : PrompterState) : PrompterEvent → PrompterState
  | .startScroll =>
    if !s.hasScript || s.isScrolling then s
    else { s with isScrolling := true, interval := some (0, s.scrollSpeed) }
  | .stopScroll => { s with isScrolling := false, interval := none }
  | .resetScroll => { s with isScrolling := false, interval := none, viewY := 0 }
  | .tick =>
    match s.interval with
    | some pv => { s with interval := some (pv.1 + pv.2, pv.2), viewY := pv.1 + pv.2 }
    | none => s
  | .incSpeed => { s with scrollSpeed := min 10 (s.scrollSpeed + 1) }
  | .decSpeed => { s with scrollSpeed := max 1 (s.scrollSpeed - 1) }
  | .incFont => { s with fontSize := min 36 (s.fontSize + 2) }
  | .decFont => { s with fontSize := max 16 (s.fontSize - 2) }

/-- Folding a list of events over the scroll state. -/
def prompterRun (s : PrompterState) (evs : List PrompterEvent) : PrompterState :=
  evs.foldl prompterStep s

/-- The documented bounds of the two settings: scrollSpeed in [1,10] and
fontSize in [16,36]. -/
def speedFontInBounds (s : PrompterState) : Prop :=
  1 ≤ s.scrollSpeed ∧ s.scrollSpeed ≤ 10 ∧ 16 ≤ s.fontSize ∧ s.fontSize ≤ 36

/-! ## Screen focus and the camera instance token

The `useFocusEffect` of TeleprompterScreen: its callback runs when the tab
gains focus and resets the camera side of the session (cameraReady false,
status idle, isRecording false, duration 0, cameraKey incremented, recording
timer cleared); the cleanup it returns runs when focus is lost and clears the
recording timer.  The scroll interval is not touched by either.  The camera
only becomes ready again through the `onCameraReady` callback of the newly
mounted CameraView. -/

/-- Session state observed across focus transitions. `recordingTimer` and
`scrollTimer` record whether `recordingTimerRef` and `scrollIntervalRef`
currently hold a live interval. -/
structure CoordState where
  cameraReady : Bool
  recordingStatus : RecStatus
  isRecording : Bool
  recordingDuration : Nat
  cameraKey : Nat
  recordingTimer : Bool
  scrollTimer : Bool
deriving DecidableEq, Repr

/-- Events acting on the focus-level session state. -/
inductive CoordEvent where
  | focusGained
  | focusLost
  | cameraReadySignal
  | durationTick (d : Nat)
deriving DecidableEq, Repr

/-- One focus-level event step, read off the `useFocusEffect` callback, its
cleanup, `onCameraReady`, and the elapsed-timer interval body. -/
def coordStep (s : CoordState) : CoordEvent → CoordState
  | .focusGained =>
    { s with
        cameraReady := false
        recordingStatus := .idle
        isRecording := false
        recordingDuration := 0
        cameraKey := s.cameraKey + 1
        recordingTimer := false }
  | .focusLost => { s with recordingTimer := false }
  | .cameraReadySignal => { s with cameraReady := true }
  | .durationTick d => if s.recordingTimer then { s with recordingDuration := d } else s

/-- Folding focus-level events over the session state. -/
def coordRun (s : CoordState) (evs : List CoordEvent) : CoordState :=
  evs.foldl coordStep s

/-- A complete screen-focus transition: focus leaves the screen and later
returns to it. -/
def focusTransition (s : CoordState) : CoordState :=
  coordStep (coordStep s .focusLost) .focusGained

/-! ## Word counting (ScriptsScreen)

`saveScript` computes `content.trim().split(/\s+/).length`.  Strings are
embedded as `List Char`; `isWS` models the whitespace class matched by `\s`
and removed by `trim` for the characters occurring in script text. -/

/-- Whitespace model for the JavaScript `\s` class and `trim`. -/
def isWS (c : Char) : Bool :=
  c = ' ' || c = '\t' || c = '\n' || c = '\r'

/-- Remove the leading whitespace run. -/
def dropWS : List Char → List Char
  | [] => []
  | c :: cs => if isWS c then dropWS cs else c :: cs

/-- `String.prototype.trim`: whitespace removed from both ends. -/
def trimChars (s : List Char) : List Char :=
  (dropWS ((dropWS s).reverse)).reverse

/-- Scanner of `split(/\s+/)`: `cur` holds the piece being built (reversed)
and `inWS` whether the previous character belonged to the current separator
run (so further whitespace extends the run instead of cutting a new piece). -/
def splitWSAux (cur : List Char) (inWS : Bool) : List Char → List (List Char)
  | [] => [cur.reverse]
  | c :: cs =>
    if isWS c then
      if inWS then splitWSAux cur true cs
      else cur.reverse :: splitWSAux [] true cs
    else splitWSAux (c :: cur) false cs

/-- `t.split(/\s+/)`: pieces of `t` between maximal whitespace runs, with an
empty piece at an end that begins or ends with whitespace. -/
def splitWS (l : List Char) : List (List Char) :=
  splitWSAux [] false l

/-- The word count `saveScript` stores:
`content.trim().split(/\s+/).length`. -/
def wordCountJS (content : List Char) : Nat :=
  (splitWS (trimChars content)).length

/-- Number of maximal whitespace runs seen by a scan starting in state
`inWS` (whether the previous character was whitespace). -/
def wsRuns (inWS : Bool) : List Char → Nat
  | [] => 0
  | c :: cs =>
    if isWS c then (if inWS then wsRuns true cs else wsRuns true cs + 1)
    else wsRuns false cs

/-- Spec-side word count: the number of maximal non-whitespace runs, counted
by a scan that remembers whether the previous character was part of a word. -/
def countRunsAux (inWord : Bool) : List Char → Nat
  | [] => 0
  | c :: cs =>
    if isWS c then countRunsAux false cs
    else if inWord then countRunsAux true cs else countRunsAux true cs + 1

/-- Spec-side word count of a character list: its number of maximal runs of
non-whitespace characters. -/
def countRuns (l : List Char) : Nat :=
  countRunsAux false l

/-- The first character, if any, is not whitespace. -/
def headNonWS (l : List Char) : Bool :=
  match l.head? with
  | none => true
  | some c => !isWS c

/-- The last character, if any, is not whitespace. -/
def lastNonWS (l : List Char) : Bool :=
  headNonWS l.reverse

/-! ## Scripts and saveScript (ScriptsScreen) -/

/-- A stored script record. -/
structure Script where
  id : String
  title : List Char
  content : List Char
  createdAt : String
  wordCount : Nat
deriving DecidableEq, Repr

/-- `saveScript`: rejects blank title or content with an alert (`none`);
otherwise recomputes the word count from the current content and either maps
the edit over the list (replacing title, content and wordCount of scripts
whose id matches the script being edited) or appends a freshly created
script.  `newId` models `Date.now().toString()` and `now` the ISO
timestamp. -/
def saveScript (scripts : List Script) (editing : Option Script)
    (title content : List Char) (newId now : String) : Option (List Script) :=
  if trimChars title = [] ∨ trimChars content = [] then none
  else
    let wc := wordCountJS content
    match editing with
    | some e =>
      some (scripts.map fun s =>
        if s.id = e.id then { s with title := title, content := content, wordCount := wc }
        else s)
    | none =>
      some (scripts ++
        [{ id := newId
           title := title
           content := content
           createdAt := now
           wordCount := wc }])

/-! ## Helper lemmas: whitespace scanning and trimming -/

/-- The output of `dropWS` does not start with whitespace. -/
theorem headNonWS_dropWS (l : List Char) : headNonWS (dropWS l) = true := by
  induction l with
  | nil => rfl
  | cons c cs ih =>
    by_cases h : isWS c = true
    · simpa [dropWS, h] using ih
    · simp [dropWS, h, headNonWS]

/-- `dropWS` removes an initial segment. -/
theorem dropWS_suffix (l : List Char) : ∃ t, t ++ dropWS l = l := by
  induction l with
  | nil => exact ⟨[], rfl⟩
  | cons c cs ih =>
    by_cases h : isWS c = true
    · obtain ⟨t, ht⟩ := ih
      exact ⟨c :: t, by simp [dropWS, h, ht]⟩
    · exact ⟨[], by simp [dropWS, h]⟩

/-- `headNonWS` only looks at the first element. -/
theorem headNonWS_append (l t : List Char) (h : l ≠ []) :
    headNonWS (l ++ t) = headNonWS l := by
  cases l with
  | nil => exact absurd rfl h
  | cons c cs => rfl

/-- `lastNonWS` only looks at the last element. -/
theorem lastNonWS_append (t l : List Char) (h : l ≠ []) :
    lastNonWS (t ++ l) = lastNonWS l := by
  unfold lastNonWS
  rw [List.reverse_append]
  exact headNonWS_append l.reverse t.reverse (by simpa using h)

/-- Dropping the head keeps `lastNonWS` when the tail is nonempty. -/
theorem lastNonWS_cons (c : Char) (cs : List Char) (h : cs ≠ []) :
    lastNonWS (c :: cs) = lastNonWS cs := by
  have : c :: cs = [c] ++ cs := rfl
  rw [this, lastNonWS_append [c] cs h]

/-- `lastNonWS` of a single character. -/
theorem lastNonWS_single (c : Char) : lastNonWS [c] = !isWS c := rfl

/-- A trimmed string does not end with whitespace. -/
theorem lastNonWS_trimChars (s : List Char) : lastNonWS (trimChars s) = true := by
  unfold trimChars lastNonWS
  rw [List.reverse_reverse]
  exact headNonWS_dropWS _

/-- A trimmed string does not start with whitespace. -/
theorem headNonWS_trimChars (s : List Char) : headNonWS (trimChars s) = true := by
  unfold trimChars
  rcases hY : dropWS ((dropWS s).reverse) with _ | ⟨c, cs⟩
  · rfl
  · obtain ⟨t, ht⟩ := dropWS_suffix ((dropWS s).reverse)
    rw [hY] at ht
    have hlast : lastNonWS (c :: cs) = lastNonWS ((dropWS s).reverse) := by
      conv_rhs => rw [← ht]
      exact (lastNonWS_append t (c :: cs) (by simp)).symm
    have hrev : lastNonWS ((dropWS s).reverse) = headNonWS (dropWS s) := by
      unfold lastNonWS
      rw [List.reverse_reverse]
    have : headNonWS ((c :: cs).reverse) = true := by
      show lastNonWS (c :: cs) = true
      rw [hlast, hrev]
      exact headNonWS_dropWS s
    exact this

/-- Length of the split result: one piece per whitespace run, plus one. -/
theorem splitWSAux_length (l : List Char) :
    ∀ cur inWS, (splitWSAux cur inWS l).length = wsRuns inWS l + 1 := by
  induction l with
  | nil => intro cur inWS; rfl
  | cons c cs ih =>
    intro cur inWS
    by_cases h : isWS c = true
    · cases inWS with
      | true => simp [splitWSAux, wsRuns, h, ih]
      | false => simp [splitWSAux, wsRuns, h, ih]
    · simp [splitWSAux, wsRuns, h, ih]

/-- The initial scanner state does not matter when the first character is not
whitespace. -/
theorem wsRuns_of_headNonWS (l : List Char) (h : headNonWS l = true) :
    wsRuns true l = wsRuns false l := by
  cases l with
  | nil => rfl
  | cons c cs =>
    have hc : isWS c = false := by
      simpa [headNonWS] using h
    simp [wsRuns, hc]

/-- Core correspondence between word counting and whitespace-run counting on
strings that do not end with whitespace: scanning from inside a word matches
`wsRuns` from outside a run, and scanning from outside a word (nonempty input)
finds one word more than the whitespace runs seen from inside a run. -/
theorem countRunsAux_wsRuns (l : List Char) :
    (lastNonWS l = true → countRunsAux true l = wsRuns false l)
    ∧ (lastNonWS l = true → l ≠ [] → countRunsAux false l = wsRuns true l + 1) := by
  induction l with
  | nil => exact ⟨fun _ => rfl, fun _ h => absurd rfl h⟩
  | cons c cs ih =>
    constructor
    · intro hlast
      by_cases h : isWS c = true
      · have hcs : cs ≠ [] := by
          intro hnil
          rw [hnil, lastNonWS_single] at hlast
          simp [h] at hlast
        have hlcs : lastNonWS cs = true := by
          rwa [lastNonWS_cons c cs hcs] at hlast
        simp only [countRunsAux, wsRuns, h, if_true]
        exact ih.2 hlcs hcs
      · rcases List.eq_nil_or_concat cs with hnil | _
        · subst hnil
          simp [countRunsAux, wsRuns, h]
        · have hcs : cs ≠ [] := by
            rename_i hex
            obtain ⟨a, b, hab⟩ := hex
            simp [hab]
          have hlcs : lastNonWS cs = true := by
            rwa [lastNonWS_cons c cs hcs] at hlast
          simp only [countRunsAux, wsRuns, h, if_false, Bool.false_eq_true]
          exact ih.1 hlcs
    · intro hlast _
      by_cases h : isWS c = true
      · have hcs : cs ≠ [] := by
          intro hnil
          rw [hnil, lastNonWS_single] at hlast
          simp [h] at hlast
        have hlcs : lastNonWS cs = true := by
          rwa [lastNonWS_cons c cs hcs] at hlast
        simp only [countRunsAux, wsRuns, h, if_true]
        exact ih.2 hlcs hcs
      · rcases List.eq_nil_or_concat cs with hnil | _
        · subst hnil
          simp [countRunsAux, wsRuns, h]
        · have hcs : cs ≠ [] := by
            rename_i hex
            obtain ⟨a, b, hab⟩ := hex
            simp [hab]
          have hlcs : lastNonWS cs = true := by
            rwa [lastNonWS_cons c cs hcs] at hlast
          simp only [countRunsAux, wsRuns, h, if_false, Bool.false_eq_true]
          rw [ih.1 hlcs]

/-- On a trimmed, nonempty string the JavaScript split-based count equals the
number of maximal non-whitespace runs. -/
theorem wordCountJS_eq_countRuns (content : List Char)
    (h : trimChars content ≠ []) :
    wordCountJS content = countRuns (trimChars content) := by
  unfold wordCountJS countRuns splitWS
  rw [splitWSAux_length]
  rw [← wsRuns_of_headNonWS _ (headNonWS_trimChars content)]
  exact ((countRunsAux_wsRuns (trimChars content)).2 (lastNonWS_trimChars content) h).symm

/-! ## Helper lemmas: auto-scroll and settings -/

/-- Ticks do nothing while no interval is installed. -/
theorem prompterRun_ticks_noInterval (k : Nat) :
    ∀ s : PrompterState, s.interval = none →
      prompterRun s (List.replicate k .tick) = s := by
  induction k with
  | zero => intro s _; rfl
  | succ n ih =>
    intro s h
    have hstep : prompterStep s .tick = s := by
      simp [prompterStep, h]
    show prompterRun (prompterStep s .tick) (List.replicate n .tick) = s
    rw [hstep]
    exact ih s h

/-- Running `k` ticks from an installed interval advances the session position
and the view offset by `k` times the captured speed. -/
theorem prompterRun_ticks (s : PrompterState) (v : Int) :
    ∀ (k : Nat) (p : Int),
      prompterRun { s with interval := some (p, v), viewY := p }
          (List.replicate k .tick)
        = { s with interval := some (p + k * v, v), viewY := p + k * v } := by
  intro k
  induction k with
  | zero => intro p; simp [prompterRun]
  | succ n ih =>
    intro p
    show prompterRun
        (prompterStep { s with interval := some (p, v), viewY := p } .tick)
        (List.replicate n .tick) = _
    have hstep :
        prompterStep { s with interval := some (p, v), viewY := p } .tick
          = { s with interval := some (p + v, v), viewY := p + v } := by
      simp [prompterStep]
    rw [hstep, ih (p + v)]
    have harith : p + v + n * v = p + (n + 1 : Nat) * v := by
      push_cast
      ring
    rw [harith]

/-- The speed and font buttons leave the installed interval untouched. -/
theorem settingEvents_preserve_interval :
    ∀ (ss : List PrompterEvent),
      (∀ e ∈ ss, e = .incSpeed ∨ e = .decSpeed ∨ e = .incFont ∨ e = .decFont) →
      ∀ s : PrompterState, (prompterRun s ss).interval = s.interval := by
  intro ss
  induction ss with
  | nil => intro _ s; rfl
  | cons e es ih =>
    intro h s
    have he := h e (by simp)
    have hes : ∀ x ∈ es, x = .incSpeed ∨ x = .decSpeed ∨ x = .incFont ∨ x = .decFont :=
      fun x hx => h x (by simp [hx])
    show (prompterRun (prompterStep s e) es).interval = s.interval
    rw [ih hes]
    rcases he with rfl | rfl | rfl | rfl <;> rfl

/-- A tick reads the position and speed from the installed interval. -/
theorem prompterStep_tick_viewY (s : PrompterState) (p v : Int)
    (h : s.interval = some (p, v)) :
    (prompterStep s .tick).viewY = p + v := by
  simp [prompterStep, h]

/-- One event keeps the settings inside their bounds. -/
theorem prompterStep_inBounds (s : PrompterState) (e : PrompterEvent)
    (h : speedFontInBounds s) : speedFontInBounds (prompterStep s e) := by
  obtain ⟨h1, h2, h3, h4⟩ := h
  cases e with
  | startScroll =>
    by_cases hg : (!s.hasScript || s.isScrolling) = true
    · simp only [prompterStep, if_pos hg]
      exact ⟨h1, h2, h3, h4⟩
    · simp only [prompterStep, if_neg hg]
      exact ⟨h1, h2, h3, h4⟩
  | stopScroll => exact ⟨h1, h2, h3, h4⟩
  | resetScroll => exact ⟨h1, h2, h3, h4⟩
  | tick =>
    rcases hi : s.interval with _ | pv
    · simp only [prompterStep, hi]
      exact ⟨h1, h2, h3, h4⟩
    · simp only [prompterStep, hi]
      exact ⟨h1, h2, h3, h4⟩
  | incSpeed =>
    refine ⟨?_, ?_, h3, h4⟩
    · show (1 : Int) ≤ min 10 (s.scrollSpeed + 1)
      omega
    · show min 10 (s.scrollSpeed + 1) ≤ 10
      omega
  | decSpeed =>
    refine ⟨?_, ?_, h3, h4⟩
    · show (1 : Int) ≤ max 1 (s.scrollSpeed - 1)
      omega
    · show max 1 (s.scrollSpeed - 1) ≤ 10
      omega
  | incFont =>
    refine ⟨h1, h2, ?_, ?_⟩
    · show (16 : Int) ≤ min 36 (s.fontSize + 2)
      omega
    · show min 36 (s.fontSize + 2) ≤ 36
      omega
  | decFont =>
    refine ⟨h1, h2, ?_, ?_⟩
    · show (16 : Int) ≤ max 16 (s.fontSize - 2)
      omega
    · show max 16 (s.fontSize - 2) ≤ 36
      omega

/-- Any event sequence keeps the settings inside their bounds. -/
theorem prompterRun_inBounds (evs : List PrompterEvent) :
    ∀ s : PrompterState, speedFontInBounds s → speedFontInBounds (prompterRun s evs) := by
  induction evs with
  | nil => intro s h; exact h
  | cons e es ih =>
    intro s h
    exact ih (prompterStep s e) (prompterStep_inBounds s e h)

/-! ## Helper lemmas: focus coordinator -/

/-- Once false, `cameraReady` stays false until the camera-ready signal of the
new camera instance arrives. -/
theorem coordRun_cameraReady_false (evs : List CoordEvent) :
    ∀ s : CoordState, s.cameraReady = false →
      CoordEvent.cameraReadySignal ∉ evs → (coordRun s evs).cameraReady = false := by
  induction evs with
  | nil => intro s h _; exact h
  | cons e es ih =>
    intro s h hmem
    have he : e ≠ CoordEvent.cameraReadySignal := fun hc => hmem (by simp [hc])
    have hes : CoordEvent.cameraReadySignal ∉ es := fun hc => hmem (by simp [hc])
    show (coordRun (coordStep s e) es).cameraReady = false
    refine ih (coordStep s e) ?_ hes
    cases e with
    | focusGained => rfl
    | focusLost => exact h
    | cameraReadySignal => exact absurd rfl he
    | durationTick d =>
      show (if s.recordingTimer = true then { s with recordingDuration := d } else s).cameraReady = false
      split <;> exact h

/-! ## Helper lemmas: recording -/

/-- Leaving saving always lands in saved or error. -/
theorem savingOutcome_terminal (video : Option String) (saveOk : Bool) :
    savingOutcome video saveOk = .saved ∨ savingOutcome video saveOk = .error := by
  rcases video with _ | uri
  · exact Or.inr rfl
  · unfold savingOutcome
    by_cases h : uri.isEmpty = true
    · simp [h]
    · cases saveOk <;> simp [h]

/-! ## Claim theorems -/

/-- Claim C1 (amended).  Each of the four precondition failures — camera
permission, microphone permission, media-library permission, cameraReady —
independently aborts `startRecording` with a user-visible alert and leaves the
screen state untouched (status stays IDLE); however the camera-permission and
microphone-permission failures share one alert text, so the four scenarios
surface three distinct messages, not four. -/
theorem startRecording_precondition_failures (cp mp lp cr : Bool) (s : RecState)
    (elapsed : Nat) (oc : RecOutcome) :
    startRecordingRun true false mp lp cr s elapsed oc
      = (some "Camera and microphone permissions required", [(0, s)])
    ∧ startRecordingRun true cp false lp cr s elapsed oc
      = (some "Camera and microphone permissions required", [(0, s)])
    ∧ startRecordingRun true true true false cr s elapsed oc
      = (some "Media library permission required", [(0, s)])
    ∧ startRecordingRun true true true true false s elapsed oc
      = (some "Camera is not ready. Please wait a moment and try again.", [(0, s)])
    ∧ "Camera and microphone permissions required" ≠ "Media library permission required"
    ∧ "Camera and microphone permissions required"
        ≠ "Camera is not ready. Please wait a moment and try again."
    ∧ "Media library permission required"
        ≠ "Camera is not ready. Please wait a moment and try again." := by
  refine ⟨rfl, ?_, rfl, rfl, by decide, by decide, by decide⟩
  cases cp <;> rfl

/-- Claim C1, counterexample to the claim as stated: the camera-permission
failure and the microphone-permission failure produce the same alert text, so
the four precondition scenarios do not carry four distinct user-visible
messages. -/
theorem startRecording_shared_permission_message :
    startRecordingGuard true false true true true
      = some "Camera and microphone permissions required"
    ∧ startRecordingGuard true true false true true
      = some "Camera and microphone permissions required" :=
  ⟨rfl, rfl⟩

/-- Claim C2 (amended).  A focus transition (focus lost, then regained) from
any session state forces recordingStatus to IDLE, increments the camera
instance token cameraKey, cancels the recording elapsed-time timer (the
auto-scroll timer is not cancelled by the transition), clears isRecording and
the duration, and resets cameraReady to false; cameraReady then stays false
until the new camera instance delivers its ready signal. -/
theorem focusTransition_resets_session (s : CoordState) (evs : List CoordEvent) :
    (focusTransition s).recordingStatus = .idle
    ∧ (focusTransition s).cameraKey = s.cameraKey + 1
    ∧ (focusTransition s).recordingTimer = false
    ∧ (focusTransition s).isRecording = false
    ∧ (focusTransition s).recordingDuration = 0
    ∧ (focusTransition s).cameraReady = false
    ∧ (CoordEvent.cameraReadySignal ∉ evs →
        (coordRun (focusTransition s) evs).cameraReady = false) := by
  refine ⟨rfl, rfl, rfl, rfl, rfl, rfl, ?_⟩
  intro hmem
  exact coordRun_cameraReady_false evs (focusTransition s) rfl hmem

/-- Witness for C2: concrete focus transition from a recording state, followed
by events that do not include the camera-ready signal. -/
theorem focusTransition_resets_session_witness :
    (coordRun (focusTransition ⟨true, .recording, true, 3000, 5, true, true⟩)
      [.focusLost, .durationTick 7]).cameraReady = false :=
  (focusTransition_resets_session ⟨true, .recording, true, 3000, 5, true, true⟩
    [.focusLost, .durationTick 7]).2.2.2.2.2.2 (by decide)

/-- Claim C2, counterexample to the claim as stated: with the auto-scroll
interval running during RECORDING, the focus transition leaves that timer
running — the focus effect only clears the recording timer, so not every
running timer is cancelled. -/
theorem focusTransition_scroll_timer_survives :
    (⟨true, .recording, true, 3000, 5, true, true⟩ : CoordState).recordingStatus = .recording
    ∧ (⟨true, .recording, true, 3000, 5, true, true⟩ : CoordState).scrollTimer = true
    ∧ (focusTransition ⟨true, .recording, true, 3000, 5, true, true⟩).scrollTimer = true :=
  ⟨rfl, rfl, rfl⟩

/-- Claim C3 (amended).  Every `startRecording` run ends with an automatic
transition to IDLE after the fixed 2000 ms cool-down from the terminal SAVED
or ERROR state; the elapsed counter is zero by the time the cool-down is
scheduled (the second-to-last state is terminal with duration 0), and the
elapsed-time timer is already stopped in every SAVING state — but the counter
itself is not reset on entering SAVING, only after the terminal outcome. -/
theorem recording_terminal_cooldown (s : RecState) (elapsed : Nat)
    (oc : RecOutcome) (hidle : s.status = .idle) :
    (startRecordingTrace s elapsed oc).getLast? = some (cooldownMs, recIdle)
    ∧ cooldownMs = 2000
    ∧ (∃ st : RecState,
        (startRecordingTrace s elapsed oc).dropLast.getLast? = some (0, st)
        ∧ (st.status = .saved ∨ st.status = .error)
        ∧ st.duration = 0 ∧ st.timer = false)
    ∧ (∀ e ∈ startRecordingTrace s elapsed oc,
        e.2.status = .saving → e.2.timer = false) := by
  cases oc with
  | completed video saveOk =>
    refine ⟨rfl, rfl, ⟨⟨savingOutcome video saveOk, false, 0, false⟩, rfl,
      savingOutcome_terminal video saveOk, rfl, rfl⟩, ?_⟩
    intro e he
    simp only [startRecordingTrace, List.mem_cons, List.not_mem_nil, or_false] at he
    rcases he with rfl | rfl | rfl | rfl | rfl | rfl | rfl | rfl | rfl | rfl <;>
      · intro hst
        first
          | rfl
          | (simp only [hidle] at hst; simp at hst)
  | exception =>
    refine ⟨rfl, rfl, ⟨⟨.error, false, 0, false⟩, rfl, Or.inr rfl, rfl, rfl⟩, ?_⟩
    intro e he
    simp only [startRecordingTrace, List.mem_cons, List.not_mem_nil, or_false] at he
    rcases he with rfl | rfl | rfl | rfl | rfl | rfl | rfl | rfl | rfl <;>
      · intro hst
        first
          | rfl
          | (simp only [hidle] at hst; simp at hst)

/-- Witness for C3: the concrete successful run from the idle screen state. -/
theorem recording_terminal_cooldown_witness :
    (startRecordingTrace recIdle 5000 (.completed (some "video.mov") true)).getLast?
      = some (cooldownMs, recIdle) :=
  (recording_terminal_cooldown recIdle 5000 (.completed (some "video.mov") true) rfl).1

/-- Claim C3, counterexample to the claim as stated: in a successful run with
5000 ms on the elapsed counter, the state that enters SAVING still carries
duration 5000 — the counter is not reset to zero by the moment SAVING is
entered. -/
theorem saving_entered_with_nonzero_elapsed :
    ¬ (∀ e ∈ startRecordingTrace recIdle 5000 (.completed (some "video.mov") true),
        e.2.status = .saving → e.2.duration = 0) := by
  decide

/-- Claim C4.  Leaving SAVING yields SAVED exactly when the capture produced a
non-empty uri and the media library accepted it; a rejected save, a missing
video object, or an empty uri all yield ERROR — an empty result is an error,
never a zero-length success. -/
theorem savingOutcome_classification (video : Option String) (saveOk : Bool) :
    (savingOutcome video saveOk = .saved
      ↔ ((∃ uri, video = some uri ∧ uri.isEmpty = false) ∧ saveOk = true))
    ∧ (savingOutcome video saveOk = .error
      ↔ ¬ ((∃ uri, video = some uri ∧ uri.isEmpty = false) ∧ saveOk = true))
    ∧ savingOutcome none saveOk = .error
    ∧ savingOutcome (some "") saveOk = .error := by
  refine ⟨?_, ?_, rfl, rfl⟩ <;>
    · rcases video with _ | uri
      · simp [savingOutcome]
      · by_cases he : uri.isEmpty = true
        · simp [savingOutcome, he]
        · cases saveOk <;> simp [savingOutcome, he, Bool.not_eq_true]

/-- Claim C5 (amended).  A tick with no interval installed changes nothing; a
tick with an installed interval advances the session position and the view
offset by exactly the captured speed (one advance per 50 ms tick); after
`stopAutoScroll` any number of ticks leave the view offset unchanged; and
within one session, `k` ticks from position `p` land exactly at `p + k·speed`
(so the offset is non-decreasing within a session).  The claimed global
monotonicity across stop/start sequences fails, because a fresh start resets
the session position to zero. -/
theorem autoscroll_tick_behavior (s : PrompterState) (p v : Int) (k : Nat) :
    prompterStep { s with interval := none } .tick = { s with interval := none }
    ∧ prompterStep { s with interval := some (p, v) } .tick
        = { s with interval := some (p + v, v), viewY := p + v }
    ∧ (prompterRun (prompterStep s .stopScroll) (List.replicate k .tick)).viewY
        = (prompterStep s .stopScroll).viewY
    ∧ prompterRun { s with interval := some (p, v), viewY := p }
          (List.replicate k .tick)
        = { s with interval := some (p + k * v, v), viewY := p + k * v }
    ∧ scrollTickMs = 50 := by
  refine ⟨?_, ?_, ?_, prompterRun_ticks s v k p, rfl⟩
  · simp [prompterStep]
  · simp [prompterStep]
  · rw [prompterRun_ticks_noInterval k (prompterStep s .stopScroll) rfl]

/-- Claim C5, counterexample to the claim as stated: over the event sequence
start, tick, tick, stop, start, tick the commanded scroll offset reaches 4 and
then drops back to 2, so `scrollPosition` is not non-decreasing over a whole
start/stop sequence. -/
theorem scrollPosition_not_globally_monotone :
    (prompterRun (initialPrompter true)
      [.startScroll, .tick, .tick, .stopScroll]).viewY = 4
    ∧ (prompterRun (initialPrompter true)
      [.startScroll, .tick, .tick, .stopScroll, .startScroll, .tick]).viewY = 2
    ∧ ¬ ((4 : Int) ≤ 2) := by
  decide

/-- Claim C6.  `resetScroll` stops auto-scroll first and then forces the view
offset to zero; afterwards the offset is 0 and isScrolling is false, whatever
the prior state. -/
theorem resetScroll_zeroes_and_stops (s : PrompterState) :
    prompterStep s .resetScroll = { prompterStep s .stopScroll with viewY := 0 }
    ∧ (prompterStep s .resetScroll).viewY = 0
    ∧ (prompterStep s .resetScroll).isScrolling = false :=
  ⟨rfl, rfl, rfl⟩

/-- Claim C7.  From the initial settings (speed 2, font 24), every sequence of
events keeps scrollSpeed within [1,10] and fontSize within [16,36]; the
mutators are idempotent at the boundary: decreasing speed at 1 and increasing
font at 36 are exact no-ops. -/
theorem settings_clamped_in_bounds (hs : Bool) (evs : List PrompterEvent)
    (s : PrompterState) :
    speedFontInBounds (prompterRun (initialPrompter hs) evs)
    ∧ prompterStep { s with scrollSpeed := 1 } .decSpeed = { s with scrollSpeed := 1 }
    ∧ prompterStep { s with fontSize := 36 } .incFont = { s with fontSize := 36 } := by
  have hinit : speedFontInBounds (initialPrompter hs) := by
    refine ⟨?_, ?_, ?_, ?_⟩
    · show (1 : Int) ≤ 2
      decide
    · show (2 : Int) ≤ 10
      decide
    · show (16 : Int) ≤ 24
      decide
    · show (24 : Int) ≤ 36
      decide
  refine ⟨prompterRun_inBounds evs (initialPrompter hs) hinit, ?_, ?_⟩
  · have h : (max 1 ((1 : Int) - 1)) = 1 := by decide
    simp [prompterStep, h]
  · have h : (min 36 ((36 : Int) + 2)) = 36 := by decide
    simp [prompterStep, h]

/-- Claim C8.  `saveScript` stores, for both the edit and the create branch,
a word count recomputed from the current content: the number of maximal
non-whitespace runs of the trimmed content.  The stale wordCount of the edited
script never enters the result. -/
theorem saveScript_recomputes_wordCount (scripts : List Script) (e : Script)
    (title content : List Char) (newId now : String)
    (h1 : trimChars title ≠ []) (h2 : trimChars content ≠ []) :
    saveScript scripts (some e) title content newId now
      = some (scripts.map fun s =>
          if s.id = e.id then
            { s with
                title := title
                content := content
                wordCount := countRuns (trimChars content) }
          else s)
    ∧ saveScript scripts none title content newId now
      = some (scripts ++ [⟨newId, title, content, now, countRuns (trimChars content)⟩]) := by
  have hw := wordCountJS_eq_countRuns content h2
  have hg : ¬ (trimChars title = [] ∨ trimChars content = []) := not_or.mpr ⟨h1, h2⟩
  constructor <;>
    · simp only [saveScript, if_neg hg]
      rw [← hw]

/-- Witness for C8: a concrete edit and a concrete creation with two-word
content; the stored word count is recomputed as 2 although the edited script
carried the stale value 7. -/
theorem saveScript_recomputes_wordCount_witness :
    saveScript [⟨"1", ['a'], ['x'], "d1", 7⟩] (some ⟨"1", ['a'], ['x'], "d1", 7⟩)
        ['t'] ['h', ' ', 'w'] "9" "n"
      = some ([⟨"1", ['a'], ['x'], "d1", 7⟩].map fun s =>
          if s.id = "1" then
            { s with
                title := ['t']
                content := ['h', ' ', 'w']
                wordCount := countRuns (trimChars ['h', ' ', 'w']) }
          else s) :=
  (saveScript_recomputes_wordCount [⟨"1", ['a'], ['x'], "d1", 7⟩]
    ⟨"1", ['a'], ['x'], "d1", 7⟩ ['t'] ['h', ' ', 'w'] "9" "n"
    (by decide) (by decide)).1

/-- Claim C9.  The speed (and font) buttons never touch the installed
interval, so the per-tick increment stays the speed captured when
`startAutoScroll` ran, whatever setter events occur in between; and a fresh
`startAutoScroll` installs the interval at position zero with the current
speed, so the first tick lands at the captured speed rather than at the
previous offset plus the speed. -/
theorem autoscroll_captured_speed_and_zero_start (s : PrompterState) (p v : Int)
    (ss : List PrompterEvent) :
    (prompterStep s .incSpeed).interval = s.interval
    ∧ (prompterStep s .decSpeed).interval = s.interval
    ∧ ((∀ e ∈ ss, e = .incSpeed ∨ e = .decSpeed ∨ e = .incFont ∨ e = .decFont) →
        (prompterStep (prompterRun { s with interval := some (p, v) } ss) .tick).viewY
          = p + v)
    ∧ prompterStep { s with hasScript := true, isScrolling := false } .startScroll
        = { s with
              hasScript := true
              isScrolling := true
              interval := some (0, s.scrollSpeed) }
    ∧ (prompterStep (prompterStep { s with hasScript := true, isScrolling := false }
          .startScroll) .tick).viewY = s.scrollSpeed := by
  refine ⟨rfl, rfl, ?_, ?_, ?_⟩
  · intro hss
    have hint := settingEvents_preserve_interval ss hss { s with interval := some (p, v) }
    exact prompterStep_tick_viewY _ p v (by rw [hint])
  · simp [prompterStep]
  · simp [prompterStep]

/-- Witness for C9: two speed increases between installation of the interval
and the next tick do not change the captured increment. -/
theorem autoscroll_captured_speed_witness :
    (prompterStep (prompterRun { initialPrompter true with interval := some (0, 2) }
      [.incSpeed, .incSpeed]) .tick).viewY = 0 + 2 :=
  (autoscroll_captured_speed_and_zero_start (initialPrompter true) 0 2
    [.incSpeed, .incSpeed]).2.2.1 (by decide)

/-- Claim C10.  An edit through `saveScript` keeps the length and order of the
script list, preserves every script id and createdAt pointwise, and leaves
every script whose id differs from the edited one entirely unchanged. -/
theorem saveScript_edit_frame (scripts : List Script) (e : Script)
    (title content : List Char) (newId now : String) (out : List Script)
    (hout : saveScript scripts (some e) title content newId now = some out) :
    out.length = scripts.length
    ∧ (∀ i : Nat, (out[i]?).map Script.id = (scripts[i]?).map Script.id)
    ∧ (∀ i : Nat, (out[i]?).map Script.createdAt = (scripts[i]?).map Script.createdAt)
    ∧ (∀ i : Nat, ∀ s0 : Script, scripts[i]? = some s0 → s0.id ≠ e.id →
        out[i]? = some s0) := by
  by_cases hg : trimChars title = [] ∨ trimChars content = []
  · rw [saveScript, if_pos hg] at hout
    exact absurd hout (by simp)
  · rw [saveScript, if_neg hg] at hout
    simp only [Option.some.injEq] at hout
    subst hout
    refine ⟨List.length_map _ _, ?_, ?_, ?_⟩
    · intro i
      rw [List.getElem?_map]
      rcases hx : scripts[i]? with _ | s0
      · rfl
      · show some _ = some s0.id
        by_cases h : s0.id = e.id <;> simp [h]
    · intro i
      rw [List.getElem?_map]
      rcases hx : scripts[i]? with _ | s0
      · rfl
      · show some _ = some s0.createdAt
        by_cases h : s0.id = e.id <;> simp [h]
    · intro i s0 hx hne
      rw [List.getElem?_map, hx]
      simp [hne]

/-- Witness for C10: editing the first of two scripts leaves the second one,
and both ids, in place. -/
theorem saveScript_edit_frame_witness :
    (([⟨"1", ['t'], ['h', ' ', 'w'], "d1", 2⟩,
        ⟨"2", ['b'], ['y'], "d2", 1⟩] : List Script)[1]?).map Script.id
      = (([⟨"1", ['a'], ['x'], "d1", 7⟩,
          ⟨"2", ['b'], ['y'], "d2", 1⟩] : List Script)[1]?).map Script.id :=
  (saveScript_edit_frame
    [⟨"1", ['a'], ['x'], "d1", 7⟩, ⟨"2", ['b'], ['y'], "d2", 1⟩]
    ⟨"1", ['a'], ['x'], "d1", 7⟩ ['t'] ['h', ' ', 'w'] "9" "n"
    [⟨"1", ['t'], ['h', ' ', 'w'], "d1", 2⟩, ⟨"2", ['b'], ['y'], "d2", 1⟩]
    (by decide)).2.1 1

end Teleprompter
